import Mathlib

/-!
Verification of the Hyperliquid MCP server (src/src/index.ts).

The server exposes eight tools.  Each tool declares a zod argument schema,
and its handler builds a JSON request body, posts it through one shared
helper (`makeHyperliquidRequest`), and wraps the outcome in a tool result
via an identical try/catch block.  We embed:

  * JSON values (`Json`), with JavaScript truthiness and string coercion
    where the source relies on them;
  * the zod validation semantics of the declared schemas (a present key
    must match its declared type and bounds; `optional()` admits absence;
    out-of-range numbers and values outside an enum are rejected);
  * the per-tool request-body construction, copied from each handler;
  * `makeHyperliquidRequest` over an explicit HTTP outcome (axios resolves
    on a 2xx status and rejects otherwise; on rejection with a response the
    axios message is "Request failed with status code N");
  * the shared try/catch result shape (`mkResult`) and the MCP SDK glue
    that rejects invocations failing schema validation before any network
    call is attempted.
-/

/-- JSON values.  Numbers are modelled as integers: every numeric argument
appearing in the source (trade count, candle limit, millisecond
timestamps) is integral. -/
inductive Json where
  | null : Json
  | bool (b : Bool) : Json
  | num (n : Int) : Json
  | str (s : String) : Json
  | arr (elems : List Json) : Json
  | obj (fields : List (String × Json)) : Json

/-- First binding of a key in a JSON object field list. -/
def jsonLookup : Json → String → Option Json
  | Json.obj fields, k => fields.lookup k
  | _, _ => none

/-- JavaScript truthiness of a JSON value (`x && y`, `if (x)`). -/
def jsTruthy : Json → Bool
  | Json.null => false
  | Json.bool b => b
  | Json.num n => n != 0
  | Json.str s => s != ""
  | Json.arr _ => true
  | Json.obj _ => true

mutual

/-- JavaScript string coercion of a JSON value, as used by template
literal interpolation in the source.  Arrays join their elements with
commas (null elements become empty), objects coerce to
"[object Object]". -/
def jsToString : Json → String
  | Json.null => "null"
  | Json.bool b => if b then "true" else "false"
  | Json.num n => toString n
  | Json.str s => s
  | Json.arr elems => jsJoin elems
  | Json.obj _ => "[object Object]"

/-- Comma-join used by JavaScript array-to-string coercion. -/
def jsJoin : List Json → String
  | [] => ""
  | [Json.null] => ""
  | [j] => jsToString j
  | Json.null :: rest => "," ++ jsJoin rest
  | j :: rest => jsToString j ++ "," ++ jsJoin rest

end

mutual

/-- Serialization of a JSON value, modelling `JSON.stringify(data)` up to
insignificant whitespace (the source pretty-prints with two-space
indentation) and string escaping (no serialized value in the claims
contains characters needing escapes). -/
def Json.stringify : Json → String
  | Json.null => "null"
  | Json.bool b => if b then "true" else "false"
  | Json.num n => toString n
  | Json.str s => "\"" ++ s ++ "\""
  | Json.arr elems => "[" ++ stringifyElems elems ++ "]"
  | Json.obj fields => "\x7b" ++ stringifyFields fields ++ "\x7d"

/-- Serialize array elements, comma separated. -/
def stringifyElems : List Json → String
  | [] => ""
  | [j] => Json.stringify j
  | j :: rest => Json.stringify j ++ "," ++ stringifyElems rest

/-- Serialize object fields, comma separated. -/
def stringifyFields : List (String × Json) → String
  | [] => ""
  | [(k, v)] => "\"" ++ k ++ "\":" ++ Json.stringify v
  | (k, v) :: rest => "\"" ++ k ++ "\":" ++ Json.stringify v ++ "," ++ stringifyFields rest

end

/-- Raw arguments of a tool invocation: the JSON arguments object. -/
def Args : Type := List (String × Json)

/-- Find a key in the raw arguments; `none` models an absent (JavaScript
`undefined`) argument. -/
def lookupArg (a : Args) (k : String) : Option Json :=
  List.lookup k a

/-! ### zod validation semantics of the declared schemas -/

/-- `z.string()`: the key is required and must hold a string. -/
def zString (a : Args) (k : String) : Except String String :=
  match lookupArg a k with
  | some (Json.str s) => Except.ok s
  | some _ => Except.error (k ++ ": expected string")
  | none => Except.error (k ++ ": required")

/-- `z.string().optional()`: if present the value must be a string. -/
def zStringOpt (a : Args) (k : String) : Except String (Option String) :=
  match lookupArg a k with
  | some (Json.str s) => Except.ok (some s)
  | some _ => Except.error (k ++ ": expected string")
  | none => Except.ok none

/-- `z.number().optional()`: if present the value must be a number. -/
def zNumOpt (a : Args) (k : String) : Except String (Option Int) :=
  match lookupArg a k with
  | some (Json.num n) => Except.ok (some n)
  | some _ => Except.error (k ++ ": expected number")
  | none => Except.ok none

/-- `z.number().min(lo).max(hi).optional()`: if present the value must be
a number within the closed range; out-of-range values are rejected. -/
def zNumOptRange (a : Args) (k : String) (lo hi : Int) : Except String (Option Int) :=
  match lookupArg a k with
  | some (Json.num n) =>
      if lo ≤ n ∧ n ≤ hi then Except.ok (some n)
      else Except.error (k ++ ": out of range")
  | some _ => Except.error (k ++ ": expected number")
  | none => Except.ok none

/-- `z.enum([...])`: the key is required and must hold one of the listed
strings. -/
def zEnum (a : Args) (k : String) (allowed : List String) : Except String String :=
  match lookupArg a k with
  | some (Json.str s) =>
      if s ∈ allowed then Except.ok s
      else Except.error (k ++ ": invalid enum value")
  | some _ => Except.error (k ++ ": expected string")
  | none => Except.error (k ++ ": required")

/-! ### The HTTP layer -/

/-- Outcome of the single outbound axios POST.  axios resolves on a
success status (`success`), rejects with the response attached on any
other status (`httpError`), and rejects without a response on a
transport-level failure such as a timeout (`networkError`, carrying the
axios error message). -/
inductive HttpOutcome where
  | success (status : Nat) (body : Json) : HttpOutcome
  | httpError (status : Nat) (body : Json) : HttpOutcome
  | networkError (message : String) : HttpOutcome

/-- `error.response?.data?.error` followed by JavaScript `||`: the
upstream error field participates only when present and truthy, and is
then coerced to a string by template interpolation. -/
def errorFieldText (body : Json) : Option String :=
  match jsonLookup body "error" with
  | some v => if jsTruthy v then some (jsToString v) else none
  | none => none

/-- `makeHyperliquidRequest` (src/src/index.ts:79-89): on a resolved
response return `response.data`; on an axios rejection throw
`Hyperliquid API error: ${error.response?.data?.error || error.message}`,
where the axios message for a rejected status is
"Request failed with status code N". -/
def makeHyperliquidRequest (_data : Json) (oc : HttpOutcome) : Except String Json :=
  match oc with
  | HttpOutcome.success _ body => Except.ok body
  | HttpOutcome.httpError status body =>
      Except.error ("Hyperliquid API error: " ++
        ((errorFieldText body).getD ("Request failed with status code " ++ toString status)))
  | HttpOutcome.networkError message =>
      Except.error ("Hyperliquid API error: " ++ message)

/-! ### Tool results -/

/-- A tool result: the content list (each entry the text of one
`type: "text"` content block) and the optional `isError` flag (`none`
when the source leaves the field absent). -/
structure ToolResult where
  content : List String
  isError : Option Bool
deriving DecidableEq, Repr

/-- The try/catch body shared verbatim by all eight handlers: a resolved
request yields the serialized data with no `isError` field; a thrown
`Error` yields `Error: ${error.message}` flagged with `isError: true`
(every throw in the model is the `Error` built by
`makeHyperliquidRequest`, so the `instanceof Error` branch applies). -/
def mkResult : Except String Json → ToolResult
  | Except.ok data => { content := [Json.stringify data], isError := none }
  | Except.error m => { content := ["Error: " ++ m], isError := some true }

/-- MCP SDK glue: an invocation whose arguments fail schema validation is
rejected as an input error before the handler (and hence any network
call) runs. -/
def invalidParamsResult (toolName msg : String) : ToolResult :=
  { content := ["Invalid arguments for tool " ++ toolName ++ ": " ++ msg]
  , isError := some true }

/-! ### The eight tools: validation (from the declared zod schemas) and
request-body construction (from each handler) -/

/-- `get_all_mids` declares an empty schema: every arguments object
validates. -/
def validate_get_all_mids (_a : Args) : Except String Unit :=
  Except.ok ()

/-- Request body of `get_all_mids` (src/src/index.ts:97-99). -/
def body_get_all_mids (_p : Unit) : Json :=
  Json.obj [("type", Json.str "allMids")]

/-- Parsed arguments of `get_user_state`. -/
structure UserStateArgs where
  user_address : String

/-- Schema of `get_user_state`: `user_address: z.string()`. -/
def validate_get_user_state (a : Args) : Except String UserStateArgs := do
  let u ← zString a "user_address"
  pure ⟨u⟩

/-- Request body of `get_user_state` (src/src/index.ts:131-134). -/
def body_get_user_state (p : UserStateArgs) : Json :=
  Json.obj [("type", Json.str "userState"), ("user", Json.str p.user_address)]

/-- Parsed arguments of `get_recent_trades`. -/
structure RecentTradesArgs where
  coin : String
  n : Option Int

/-- Schema of `get_recent_trades`: `coin: z.string()`,
`n: z.number().min(1).max(1000).optional()`. -/
def validate_get_recent_trades (a : Args) : Except String RecentTradesArgs := do
  let coin ← zString a "coin"
  let n ← zNumOptRange a "n" 1 1000
  pure ⟨coin, n⟩

/-- Request body of `get_recent_trades` (src/src/index.ts:165-171): the
destructuring default `n = 100` and the handler clamp
`Math.min(n, 1000)`. -/
def body_get_recent_trades (p : RecentTradesArgs) : Json :=
  Json.obj [("type", Json.str "trades"), ("coin", Json.str p.coin),
    ("n", Json.num (min (p.n.getD 100) 1000))]

/-- Parsed arguments of `get_l2_snapshot`. -/
structure L2SnapshotArgs where
  coin : String

/-- Schema of `get_l2_snapshot`: `coin: z.string()`. -/
def validate_get_l2_snapshot (a : Args) : Except String L2SnapshotArgs := do
  let coin ← zString a "coin"
  pure ⟨coin⟩

/-- Request body of `get_l2_snapshot` (src/src/index.ts:203-206). -/
def body_get_l2_snapshot (p : L2SnapshotArgs) : Json :=
  Json.obj [("type", Json.str "l2Book"), ("coin", Json.str p.coin)]

/-- The enumerated candle intervals of the `z.enum` in the
`get_candles` schema. -/
def candleIntervals : List String :=
  ["1m", "5m", "15m", "1h", "4h", "1d"]

/-- Parsed arguments of `get_candles`. -/
structure CandlesArgs where
  coin : String
  interval : String
  start_time : Option Int
  end_time : Option Int
  limit : Option Int

/-- Schema of `get_candles`: `coin: z.string()`, `interval: z.enum(...)`,
`start_time: z.number().optional()`, `end_time: z.number().optional()`,
`limit: z.number().min(1).max(5000).optional()`. -/
def validate_get_candles (a : Args) : Except String CandlesArgs := do
  let coin ← zString a "coin"
  let interval ← zEnum a "interval" candleIntervals
  let start_time ← zNumOpt a "start_time"
  let end_time ← zNumOpt a "end_time"
  let limit ← zNumOptRange a "limit" 1 5000
  pure ⟨coin, interval, start_time, end_time, limit⟩

/-- The `if (start_time) requestData.startTime = start_time` guard of the
`get_candles` handler: JavaScript truthiness, so a zero or absent
timestamp adds no field. -/
def timeField (key : String) : Option Int → List (String × Json)
  | some t => if t != 0 then [(key, Json.num t)] else []
  | none => []

/-- Arguments-object fragment supplying one optional timestamp argument
of `get_candles`: `some v` models the key provided with value `v`,
`none` models the key omitted. -/
def timeArg (k : String) : Option Int → List (String × Json)
  | some v => [(k, Json.num v)]
  | none => []

/-- What `get_candles` forwards for one optional timestamp argument: a
provided nonzero value appears under the renamed camel-case key, while a
zero or omitted value yields no field. -/
def forwardedTime : Option Int → Option Json
  | some v => if v ≠ 0 then some (Json.num v) else none
  | none => none

/-- Request body of `get_candles` (src/src/index.ts:242-250): the base
fields with the destructuring default `limit = 500` and the clamp
`Math.min(limit, 5000)`, then the conditionally appended renamed
timestamp fields. -/
def body_get_candles (p : CandlesArgs) : Json :=
  Json.obj ([("type", Json.str "candles"), ("coin", Json.str p.coin),
    ("interval", Json.str p.interval),
    ("limit", Json.num (min (p.limit.getD 500) 5000))]
    ++ timeField "startTime" p.start_time ++ timeField "endTime" p.end_time)

/-- `get_meta` declares an empty schema: every arguments object
validates. -/
def validate_get_meta (_a : Args) : Except String Unit :=
  Except.ok ()

/-- Request body of `get_meta` (src/src/index.ts:282-284). -/
def body_get_meta (_p : Unit) : Json :=
  Json.obj [("type", Json.str "meta")]

/-- Parsed arguments of `get_funding_rates` and `get_open_interest`. -/
structure CoinOptArgs where
  coin : Option String

/-- Shared schema of `get_funding_rates` and `get_open_interest`:
`coin: z.string().optional()`. -/
def validate_coin_opt (a : Args) : Except String CoinOptArgs := do
  let coin ← zStringOpt a "coin"
  pure ⟨coin⟩

/-- The `...(coin && \x7bcoin\x7d)` spread of both coin-optional
handlers: `coin && ...` uses JavaScript truthiness, so an absent or
empty-string coin contributes no field (spreading a falsy value adds no
properties). -/
def coinSpread : Option String → List (String × Json)
  | some c => if c != "" then [("coin", Json.str c)] else []
  | none => []

/-- Request body of `get_funding_rates` (src/src/index.ts:316-319). -/
def body_get_funding_rates (p : CoinOptArgs) : Json :=
  Json.obj (("type", Json.str "fundingRate") :: coinSpread p.coin)

/-- Request body of `get_open_interest` (src/src/index.ts:351-354). -/
def body_get_open_interest (p : CoinOptArgs) : Json :=
  Json.obj (("type", Json.str "openInterest") :: coinSpread p.coin)

/-! ### Invocation pipeline -/

/-- Full invocation of one tool: SDK-level schema validation, then the
handler (request construction, the outbound call with outcome `oc`, and
the shared try/catch). -/
def runTool {P : Type} (toolName : String) (validate : Args → Except String P)
    (body : P → Json) (a : Args) (oc : HttpOutcome) : ToolResult :=
  match validate a with
  | Except.error m => invalidParamsResult toolName m
  | Except.ok p => mkResult (makeHyperliquidRequest (body p) oc)

/-- The upstream request an invocation issues: `none` when validation
fails (no network call is attempted). -/
def requestOf {P : Type} (validate : Args → Except String P) (body : P → Json)
    (a : Args) : Option Json :=
  (validate a).toOption.map body

def invoke_get_all_mids : Args → HttpOutcome → ToolResult :=
  runTool "get_all_mids" validate_get_all_mids body_get_all_mids

def request_get_all_mids : Args → Option Json :=
  requestOf validate_get_all_mids body_get_all_mids

def invoke_get_user_state : Args → HttpOutcome → ToolResult :=
  runTool "get_user_state" validate_get_user_state body_get_user_state

def request_get_user_state : Args → Option Json :=
  requestOf validate_get_user_state body_get_user_state

def invoke_get_recent_trades : Args → HttpOutcome → ToolResult :=
  runTool "get_recent_trades" validate_get_recent_trades body_get_recent_trades

def request_get_recent_trades : Args → Option Json :=
  requestOf validate_get_recent_trades body_get_recent_trades

def invoke_get_l2_snapshot : Args → HttpOutcome → ToolResult :=
  runTool "get_l2_snapshot" validate_get_l2_snapshot body_get_l2_snapshot

def request_get_l2_snapshot : Args → Option Json :=
  requestOf validate_get_l2_snapshot body_get_l2_snapshot

def invoke_get_candles : Args → HttpOutcome → ToolResult :=
  runTool "get_candles" validate_get_candles body_get_candles

def request_get_candles : Args → Option Json :=
  requestOf validate_get_candles body_get_candles

def invoke_get_meta : Args → HttpOutcome → ToolResult :=
  runTool "get_meta" validate_get_meta body_get_meta

def request_get_meta : Args → Option Json :=
  requestOf validate_get_meta body_get_meta

def invoke_get_funding_rates : Args → HttpOutcome → ToolResult :=
  runTool "get_funding_rates" validate_coin_opt body_get_funding_rates

def request_get_funding_rates : Args → Option Json :=
  requestOf validate_coin_opt body_get_funding_rates

def invoke_get_open_interest : Args → HttpOutcome → ToolResult :=
  runTool "get_open_interest" validate_coin_opt body_get_open_interest

def request_get_open_interest : Args → Option Json :=
  requestOf validate_coin_opt body_get_open_interest

/-- The complete tool surface. -/
inductive Tool where
  | get_all_mids
  | get_user_state
  | get_recent_trades
  | get_l2_snapshot
  | get_candles
  | get_meta
  | get_funding_rates
  | get_open_interest
deriving DecidableEq

/-- Invoke a tool by name. -/
def invokeTool : Tool → Args → HttpOutcome → ToolResult
  | Tool.get_all_mids => invoke_get_all_mids
  | Tool.get_user_state => invoke_get_user_state
  | Tool.get_recent_trades => invoke_get_recent_trades
  | Tool.get_l2_snapshot => invoke_get_l2_snapshot
  | Tool.get_candles => invoke_get_candles
  | Tool.get_meta => invoke_get_meta
  | Tool.get_funding_rates => invoke_get_funding_rates
  | Tool.get_open_interest => invoke_get_open_interest

/-- Whether an invocation passes its tool's schema validation. -/
def toolValidates : Tool → Args → Bool
  | Tool.get_all_mids, a => (validate_get_all_mids a).toOption.isSome
  | Tool.get_user_state, a => (validate_get_user_state a).toOption.isSome
  | Tool.get_recent_trades, a => (validate_get_recent_trades a).toOption.isSome
  | Tool.get_l2_snapshot, a => (validate_get_l2_snapshot a).toOption.isSome
  | Tool.get_candles, a => (validate_get_candles a).toOption.isSome
  | Tool.get_meta, a => (validate_get_meta a).toOption.isSome
  | Tool.get_funding_rates, a => (validate_coin_opt a).toOption.isSome
  | Tool.get_open_interest, a => (validate_coin_opt a).toOption.isSome

/-! ### Helper lemmas -/

/-- A validation result whose option projection is filled is an `ok`. -/
theorem exceptOk_of_isSome {ε α : Type} (v : Except ε α)
    (h : v.toOption.isSome = true) : ∃ p, v = Except.ok p := by
  cases v with
  | ok p => exact ⟨p, rfl⟩
  | error e => simp [Except.toOption] at h

/-- Unfolding lemma names for the `Except` monad used by the validation
do-blocks. -/
theorem except_bind_ok {ε α β : Type} (x : α) (f : α → Except ε β) :
    (Except.ok x >>= f) = f x := rfl

/-- Binding after a validation error propagates the error. -/
theorem except_bind_error {ε α β : Type} (e : ε) (f : α → Except ε β) :
    ((Except.error e : Except ε α) >>= f) = Except.error e := rfl

/-- Mapping over a validation error propagates the error. -/
theorem except_map_error {ε α β : Type} (e : ε) (f : α → β) :
    (f <$> (Except.error e : Except ε α)) = Except.error e := rfl

/-- Appending the handler's "Error: " banner to the helper's message
reassociates to a single literal prefix. -/
theorem err_append (e : String) :
    "Error: " ++ ("Hyperliquid API error: " ++ e) =
      "Error: Hyperliquid API error: " ++ e := by
  have h : "Error: " ++ "Hyperliquid API error: " = "Error: Hyperliquid API error: " := by
    decide
  rw [← String.append_assoc, h]

/-- Running a tool on arguments that validate is the shared try/catch
around the outbound call. -/
theorem runTool_ok {P : Type} (toolName : String)
    (validate : Args → Except String P) (body : P → Json) (a : Args)
    (oc : HttpOutcome) (p : P) (hv : validate a = Except.ok p) :
    runTool toolName validate body a oc =
      mkResult (makeHyperliquidRequest (body p) oc) := by
  simp [runTool, hv]

/-- Running a tool on arguments that fail validation is the input-error
rejection, for every outcome. -/
theorem runTool_error {P : Type} (toolName : String)
    (validate : Args → Except String P) (body : P → Json) (a : Args)
    (oc : HttpOutcome) (m : String) (hv : validate a = Except.error m) :
    runTool toolName validate body a oc = invalidParamsResult toolName m := by
  simp [runTool, hv]

/-! ### Claims -/

/-- C1 counterexample: invoking `get_recent_trades` with `n = 5000` does
NOT issue an upstream request with `n` clamped to 1000 — the declared
schema `z.number().min(1).max(1000)` rejects the value, so no request is
issued and the invocation is signalled as an input error (for any
outcome of the never-performed call). -/
theorem C1_counterexample :
    request_get_recent_trades [("coin", Json.str "BTC"), ("n", Json.num 5000)] = none ∧
    invoke_get_recent_trades [("coin", Json.str "BTC"), ("n", Json.num 5000)]
        (HttpOutcome.success 200 (Json.obj [])) =
      invalidParamsResult "get_recent_trades" "n: out of range" ∧
    invoke_get_recent_trades [("coin", Json.str "BTC"), ("n", Json.num 5000)]
        (HttpOutcome.networkError "timeout") =
      invalidParamsResult "get_recent_trades" "n: out of range" :=
  ⟨rfl, rfl, rfl⟩

/-- C1 (amended): for `get_recent_trades`, every invocation whose `n`
argument exceeds the declared maximum 1000 is rejected by schema
validation as an input error: no upstream request is issued and the
result does not depend on any outbound outcome. -/
theorem C1_overlarge_n_rejected (a : Args) (n : Int) (oc oc' : HttpOutcome)
    (hn : lookupArg a "n" = some (Json.num n)) (hgt : 1000 < n) :
    request_get_recent_trades a = none ∧
    (invoke_get_recent_trades a oc).isError = some true ∧
    invoke_get_recent_trades a oc = invoke_get_recent_trades a oc' := by
  have hnot : ¬(1 ≤ n ∧ n ≤ 1000) := by omega
  have hz : zNumOptRange a "n" 1 1000 = Except.error "n: out of range" := by
    simp [zNumOptRange, hn, hnot]
  have hval : ∃ m, validate_get_recent_trades a = Except.error m := by
    cases h : zString a "coin" with
    | ok c =>
        exact ⟨"n: out of range", by simp [validate_get_recent_trades, h, hz,
          except_bind_ok, except_bind_error]⟩
    | error m =>
        exact ⟨m, by simp [validate_get_recent_trades, h, except_bind_error]⟩
  obtain ⟨m, hm⟩ := hval
  exact ⟨by simp [request_get_recent_trades, requestOf, hm, Except.toOption],
    by simp [invoke_get_recent_trades, runTool, hm, invalidParamsResult],
    by simp [invoke_get_recent_trades, runTool, hm]⟩

/-- C1 witness: the amended statement at the spec's own input `n = 5000`. -/
theorem C1_witness :
    lookupArg [("coin", Json.str "BTC"), ("n", Json.num 5000)] "n" =
      some (Json.num 5000) ∧
    (request_get_recent_trades [("coin", Json.str "BTC"), ("n", Json.num 5000)] = none ∧
     (invoke_get_recent_trades [("coin", Json.str "BTC"), ("n", Json.num 5000)]
        (HttpOutcome.success 200 (Json.obj []))).isError = some true ∧
     invoke_get_recent_trades [("coin", Json.str "BTC"), ("n", Json.num 5000)]
        (HttpOutcome.success 200 (Json.obj [])) =
       invoke_get_recent_trades [("coin", Json.str "BTC"), ("n", Json.num 5000)]
        (HttpOutcome.networkError "timeout")) :=
  ⟨rfl, C1_overlarge_n_rejected [("coin", Json.str "BTC"), ("n", Json.num 5000)] 5000
    (HttpOutcome.success 200 (Json.obj [])) (HttpOutcome.networkError "timeout")
    rfl (by decide)⟩

/-- C2 counterexample: a successful HTTP status whose body embeds an
`error` field is NOT error-flagged — `get_all_mids` against a 200
response with body containing an error field returns the serialized body
as a successful payload with no `isError` flag. -/
theorem C2_counterexample :
    errorFieldText (Json.obj [("error", Json.str "oops")]) = some "oops" ∧
    invoke_get_all_mids []
        (HttpOutcome.success 200 (Json.obj [("error", Json.str "oops")])) =
      { content := [Json.stringify (Json.obj [("error", Json.str "oops")])]
      , isError := none } :=
  ⟨rfl, rfl⟩

/-- C2 (amended): an `error` payload embedded in the response body is
surfaced as an error-flagged result only when the HTTP status is
non-success (where its text is carried in the message); when the HTTP
status is successful the body, `error` field included, is returned as a
successful payload.  Holds for every tool and validated invocation. -/
theorem C2_error_payload_needs_error_status (t : Tool) (a : Args) (body : Json)
    (e : String) (status : Nat) (hval : toolValidates t a = true)
    (he : errorFieldText body = some e) :
    invokeTool t a (HttpOutcome.success status body) =
      { content := [Json.stringify body], isError := none } ∧
    invokeTool t a (HttpOutcome.httpError status body) =
      { content := ["Error: Hyperliquid API error: " ++ e], isError := some true } := by
  cases t
  all_goals
    simp only [toolValidates] at hval
    obtain ⟨p, hp⟩ := exceptOk_of_isSome _ hval
    refine ⟨?_, ?_⟩ <;>
      simp [invokeTool, invoke_get_all_mids, invoke_get_user_state,
        invoke_get_recent_trades, invoke_get_l2_snapshot, invoke_get_candles,
        invoke_get_meta, invoke_get_funding_rates, invoke_get_open_interest,
        runTool, hp, mkResult, makeHyperliquidRequest, he, err_append]

/-- C2 witness: the amended statement at `get_all_mids`, an empty
arguments object, and a body embedding the error text "oops". -/
theorem C2_witness :
    toolValidates Tool.get_all_mids [] = true ∧
    errorFieldText (Json.obj [("error", Json.str "oops")]) = some "oops" ∧
    (invokeTool Tool.get_all_mids []
        (HttpOutcome.success 200 (Json.obj [("error", Json.str "oops")])) =
      { content := [Json.stringify (Json.obj [("error", Json.str "oops")])]
      , isError := none } ∧
     invokeTool Tool.get_all_mids []
        (HttpOutcome.httpError 200 (Json.obj [("error", Json.str "oops")])) =
      { content := ["Error: Hyperliquid API error: oops"], isError := some true }) :=
  ⟨rfl, rfl, C2_error_payload_needs_error_status Tool.get_all_mids []
    (Json.obj [("error", Json.str "oops")]) "oops" 200 rfl rfl⟩

/-- C3: for every `get_l2_snapshot` invocation failing with a non-success
HTTP status, if the response body embeds a truthy `error` field the
error-flagged result's message contains that upstream text; otherwise the
message is the generic axios transport description for the status. -/
theorem C3_l2_error_message (coin : String) (status : Nat) (body : Json) :
    (∀ e, errorFieldText body = some e →
      (invoke_get_l2_snapshot [("coin", Json.str coin)]
          (HttpOutcome.httpError status body)).isError = some true ∧
      ∃ pre post,
        (invoke_get_l2_snapshot [("coin", Json.str coin)]
            (HttpOutcome.httpError status body)).content = [pre ++ e ++ post]) ∧
    (errorFieldText body = none →
      invoke_get_l2_snapshot [("coin", Json.str coin)]
          (HttpOutcome.httpError status body) =
        { content := ["Error: Hyperliquid API error: Request failed with status code " ++
            toString status], isError := some true }) := by
  have hval : validate_get_l2_snapshot [("coin", Json.str coin)] =
      Except.ok ⟨coin⟩ := by
    simp [validate_get_l2_snapshot, zString, lookupArg, List.lookup, except_bind_ok]
  constructor
  · intro e he
    refine ⟨?_, "Error: Hyperliquid API error: ", "", ?_⟩
    · simp [invoke_get_l2_snapshot, runTool, hval, mkResult, makeHyperliquidRequest, he]
    · simp [invoke_get_l2_snapshot, runTool, hval, mkResult, makeHyperliquidRequest,
        he, err_append]
  · intro he
    have hmsg : "Error: " ++
        ("Hyperliquid API error: " ++ ("Request failed with status code " ++
          toString status)) =
        "Error: Hyperliquid API error: Request failed with status code " ++
          toString status := by
      have h1 : "Error: " ++ "Hyperliquid API error: " =
          "Error: Hyperliquid API error: " := by decide
      have h2 : "Error: Hyperliquid API error: " ++
          "Request failed with status code " =
          "Error: Hyperliquid API error: Request failed with status code " := by decide
      rw [← String.append_assoc, h1, ← String.append_assoc, h2]
    simp [invoke_get_l2_snapshot, runTool, hval, mkResult, makeHyperliquidRequest,
      he, hmsg]

/-- C3 witness: the spec's end-to-end scenario — coin "ZZZ", a stub HTTP
500 with body embedding the error text "coin not found". -/
theorem C3_witness :
    errorFieldText (Json.obj [("error", Json.str "coin not found")]) =
      some "coin not found" ∧
    ((invoke_get_l2_snapshot [("coin", Json.str "ZZZ")]
        (HttpOutcome.httpError 500
          (Json.obj [("error", Json.str "coin not found")]))).isError = some true ∧
     ∃ pre post,
       (invoke_get_l2_snapshot [("coin", Json.str "ZZZ")]
           (HttpOutcome.httpError 500
             (Json.obj [("error", Json.str "coin not found")]))).content =
         [pre ++ "coin not found" ++ post]) :=
  ⟨rfl, (C3_l2_error_message "ZZZ" 500
    (Json.obj [("error", Json.str "coin not found")])).1 "coin not found" rfl⟩

/-- C4: every `get_candles` invocation whose `interval` argument is a
string outside the enumerated set is rejected as an input error: no
upstream request is issued and the result does not depend on any
outbound outcome. -/
theorem C4_bad_interval_rejected (a : Args) (s : String) (oc oc' : HttpOutcome)
    (hs : lookupArg a "interval" = some (Json.str s))
    (hmem : s ∉ candleIntervals) :
    request_get_candles a = none ∧
    (invoke_get_candles a oc).isError = some true ∧
    invoke_get_candles a oc = invoke_get_candles a oc' := by
  have hz : zEnum a "interval" candleIntervals =
      Except.error "interval: invalid enum value" := by
    simp [zEnum, hs, hmem]
  have hval : ∃ m, validate_get_candles a = Except.error m := by
    cases h : zString a "coin" with
    | ok c =>
        exact ⟨"interval: invalid enum value", by simp [validate_get_candles, h, hz,
          except_bind_ok, except_bind_error]⟩
    | error m =>
        exact ⟨m, by simp [validate_get_candles, h, except_bind_error]⟩
  obtain ⟨m, hm⟩ := hval
  exact ⟨by simp [request_get_candles, requestOf, hm, Except.toOption],
    by simp [invoke_get_candles, runTool, hm, invalidParamsResult],
    by simp [invoke_get_candles, runTool, hm]⟩

/-- C4 witness: interval "2h" is outside the enumerated set and is
rejected with no request issued, independently of the outcome. -/
theorem C4_witness :
    lookupArg [("coin", Json.str "BTC"), ("interval", Json.str "2h")] "interval" =
      some (Json.str "2h") ∧
    "2h" ∉ candleIntervals ∧
    (request_get_candles [("coin", Json.str "BTC"), ("interval", Json.str "2h")] = none ∧
     (invoke_get_candles [("coin", Json.str "BTC"), ("interval", Json.str "2h")]
        (HttpOutcome.success 200 (Json.obj []))).isError = some true ∧
     invoke_get_candles [("coin", Json.str "BTC"), ("interval", Json.str "2h")]
        (HttpOutcome.success 200 (Json.obj [])) =
       invoke_get_candles [("coin", Json.str "BTC"), ("interval", Json.str "2h")]
        (HttpOutcome.networkError "timeout")) :=
  ⟨rfl, by decide, C4_bad_interval_rejected
    [("coin", Json.str "BTC"), ("interval", Json.str "2h")] "2h"
    (HttpOutcome.success 200 (Json.obj [])) (HttpOutcome.networkError "timeout")
    rfl (by decide)⟩

/-- C5: omitting the required string parameter of `get_l2_snapshot`
(`coin`) or of `get_user_state` (`user_address`) rejects the invocation
as an input error: no upstream request is issued and the result does not
depend on any outbound outcome. -/
theorem C5_missing_required_rejected (a b : Args) (oc oc' : HttpOutcome)
    (hc : lookupArg a "coin" = none) (hu : lookupArg b "user_address" = none) :
    request_get_l2_snapshot a = none ∧
    (invoke_get_l2_snapshot a oc).isError = some true ∧
    invoke_get_l2_snapshot a oc = invoke_get_l2_snapshot a oc' ∧
    request_get_user_state b = none ∧
    (invoke_get_user_state b oc).isError = some true ∧
    invoke_get_user_state b oc = invoke_get_user_state b oc' := by
  have h1 : validate_get_l2_snapshot a = Except.error "coin: required" := by
    simp [validate_get_l2_snapshot, zString, hc, except_bind_error]
  have h2 : validate_get_user_state b = Except.error "user_address: required" := by
    simp [validate_get_user_state, zString, hu, except_bind_error]
  exact ⟨by simp [request_get_l2_snapshot, requestOf, h1, Except.toOption],
    by simp [invoke_get_l2_snapshot, runTool, h1, invalidParamsResult],
    by simp [invoke_get_l2_snapshot, runTool, h1],
    by simp [request_get_user_state, requestOf, h2, Except.toOption],
    by simp [invoke_get_user_state, runTool, h2, invalidParamsResult],
    by simp [invoke_get_user_state, runTool, h2]⟩

/-- C5 witness: the empty arguments object omits both required
parameters. -/
theorem C5_witness :
    lookupArg [] "coin" = none ∧
    lookupArg [] "user_address" = none ∧
    (request_get_l2_snapshot [] = none ∧
     (invoke_get_l2_snapshot [] (HttpOutcome.success 200 (Json.obj []))).isError =
       some true ∧
     invoke_get_l2_snapshot [] (HttpOutcome.success 200 (Json.obj [])) =
       invoke_get_l2_snapshot [] (HttpOutcome.networkError "timeout") ∧
     request_get_user_state [] = none ∧
     (invoke_get_user_state [] (HttpOutcome.success 200 (Json.obj []))).isError =
       some true ∧
     invoke_get_user_state [] (HttpOutcome.success 200 (Json.obj [])) =
       invoke_get_user_state [] (HttpOutcome.networkError "timeout")) :=
  ⟨rfl, rfl, C5_missing_required_rejected [] []
    (HttpOutcome.success 200 (Json.obj [])) (HttpOutcome.networkError "timeout")
    rfl rfl⟩

/-- C6: every `get_funding_rates` or `get_open_interest` invocation whose
arguments omit `coin` issues an upstream request holding only the
discriminator — the body carries no `coin` field at all. -/
theorem C6_omitted_coin_no_field (a : Args) (hc : lookupArg a "coin" = none) :
    request_get_funding_rates a = some (Json.obj [("type", Json.str "fundingRate")]) ∧
    request_get_open_interest a = some (Json.obj [("type", Json.str "openInterest")]) ∧
    jsonLookup (Json.obj [("type", Json.str "fundingRate")]) "coin" = none ∧
    jsonLookup (Json.obj [("type", Json.str "openInterest")]) "coin" = none := by
  have hval : validate_coin_opt a = Except.ok ⟨none⟩ := by
    simp [validate_coin_opt, zStringOpt, hc, except_bind_ok]
  exact ⟨by simp [request_get_funding_rates, requestOf, hval, Except.toOption,
      body_get_funding_rates, coinSpread],
    by simp [request_get_open_interest, requestOf, hval, Except.toOption,
      body_get_open_interest, coinSpread],
    rfl, rfl⟩

/-- C6 witness: the empty arguments object omits `coin`. -/
theorem C6_witness :
    lookupArg [] "coin" = none ∧
    (request_get_funding_rates [] = some (Json.obj [("type", Json.str "fundingRate")]) ∧
     request_get_open_interest [] = some (Json.obj [("type", Json.str "openInterest")]) ∧
     jsonLookup (Json.obj [("type", Json.str "fundingRate")]) "coin" = none ∧
     jsonLookup (Json.obj [("type", Json.str "openInterest")]) "coin" = none) :=
  ⟨rfl, C6_omitted_coin_no_field [] rfl⟩

/-- C7: invoking `get_recent_trades` with coin "BTC" and n 50 issues
exactly the body with discriminator "trades", coin "BTC" and n 50; an
echoing stub upstream yields the serialized body as a successful result
with no error flag; omitting `n` issues the default n 100. -/
theorem C7_recent_trades_echo :
    request_get_recent_trades [("coin", Json.str "BTC"), ("n", Json.num 50)] =
      some (Json.obj [("type", Json.str "trades"), ("coin", Json.str "BTC"),
        ("n", Json.num 50)]) ∧
    invoke_get_recent_trades [("coin", Json.str "BTC"), ("n", Json.num 50)]
        (HttpOutcome.success 200
          (Json.obj [("type", Json.str "trades"), ("coin", Json.str "BTC"),
            ("n", Json.num 50)])) =
      { content := [Json.stringify (Json.obj [("type", Json.str "trades"),
          ("coin", Json.str "BTC"), ("n", Json.num 50)])], isError := none } ∧
    request_get_recent_trades [("coin", Json.str "BTC")] =
      some (Json.obj [("type", Json.str "trades"), ("coin", Json.str "BTC"),
        ("n", Json.num 100)]) :=
  ⟨rfl, rfl, rfl⟩

/-- C8: providing `coin` as the empty string to `get_funding_rates` or
`get_open_interest` omits the `coin` field from the upstream body
entirely — the request coincides with the omitted-argument request
(the all-markets query). -/
theorem C8_empty_coin_omitted :
    request_get_funding_rates [("coin", Json.str "")] =
      some (Json.obj [("type", Json.str "fundingRate")]) ∧
    request_get_funding_rates [("coin", Json.str "")] =
      request_get_funding_rates [] ∧
    request_get_open_interest [("coin", Json.str "")] =
      some (Json.obj [("type", Json.str "openInterest")]) ∧
    request_get_open_interest [("coin", Json.str "")] =
      request_get_open_interest [] :=
  ⟨rfl, rfl, rfl, rfl⟩

/-- The truthiness guard forwards exactly what `forwardedTime`
describes: one field under the given key for a provided nonzero value,
nothing otherwise. -/
theorem timeField_forwarded (key : String) (ot : Option Int) :
    timeField key ot = (forwardedTime ot).elim [] (fun j => [(key, j)]) := by
  rcases ot with _ | v
  · rfl
  · by_cases hv : v = 0
    · subst hv
      rfl
    · have hv' : (v != 0) = true := by simpa using hv
      simp [timeField, forwardedTime, hv, hv']

/-- The `startTime` field of a `get_candles` body is exactly the
forwarded value of the parsed `start_time` argument. -/
theorem body_candles_lookup_startTime (p : CandlesArgs) :
    jsonLookup (body_get_candles p) "startTime" = forwardedTime p.start_time := by
  rcases p with ⟨c, s, st, et, lim⟩
  simp only [body_get_candles, timeField_forwarded, jsonLookup]
  cases hst : forwardedTime st <;> cases het : forwardedTime et <;>
    simp [List.lookup, Option.elim]

/-- The `endTime` field of a `get_candles` body is exactly the forwarded
value of the parsed `end_time` argument. -/
theorem body_candles_lookup_endTime (p : CandlesArgs) :
    jsonLookup (body_get_candles p) "endTime" = forwardedTime p.end_time := by
  rcases p with ⟨c, s, st, et, lim⟩
  simp only [body_get_candles, timeField_forwarded, jsonLookup]
  cases hst : forwardedTime st <;> cases het : forwardedTime et <;>
    simp [List.lookup, Option.elim]

/-- The snake-case argument keys never appear in a `get_candles` body. -/
theorem body_candles_lookup_snake (p : CandlesArgs) :
    jsonLookup (body_get_candles p) "start_time" = none ∧
    jsonLookup (body_get_candles p) "end_time" = none := by
  rcases p with ⟨c, s, st, et, lim⟩
  simp only [body_get_candles, timeField_forwarded, jsonLookup]
  cases hst : forwardedTime st <;> cases het : forwardedTime et <;>
    simp [List.lookup, Option.elim]

/-- C9: for `get_candles`, each optional timestamp argument behaves
independently: a provided zero value is treated like an omitted argument
(the JavaScript truthiness guard drops the field), while a provided
nonzero value is forwarded under the renamed camel-case key; the
snake-case keys never appear in the body.  Quantifying `st`/`et` over
provided-or-omitted values covers the mixed invocations (one zero, one
nonzero) alongside the diagonal ones. -/
theorem C9_candles_time_fields (c s : String) (st et : Option Int)
    (hs : s ∈ candleIntervals) :
    ∃ b, request_get_candles ([("coin", Json.str c), ("interval", Json.str s)] ++
        timeArg "start_time" st ++ timeArg "end_time" et) = some b ∧
      jsonLookup b "startTime" = forwardedTime st ∧
      jsonLookup b "endTime" = forwardedTime et ∧
      jsonLookup b "start_time" = none ∧
      jsonLookup b "end_time" = none := by
  have hval : validate_get_candles ([("coin", Json.str c), ("interval", Json.str s)] ++
      timeArg "start_time" st ++ timeArg "end_time" et) =
      Except.ok ⟨c, s, st, et, none⟩ := by
    rcases st with _ | v <;> rcases et with _ | w <;>
      simp [validate_get_candles, zString, zEnum, zNumOpt, zNumOptRange,
        lookupArg, List.lookup, timeArg, hs, except_bind_ok]
  have hval' := hval
  simp only [List.cons_append, List.nil_append] at hval'
  exact ⟨body_get_candles ⟨c, s, st, et, none⟩,
    by simp [request_get_candles, requestOf, hval', Except.toOption],
    body_candles_lookup_startTime ⟨c, s, st, et, none⟩,
    body_candles_lookup_endTime ⟨c, s, st, et, none⟩,
    (body_candles_lookup_snake ⟨c, s, st, et, none⟩).1,
    (body_candles_lookup_snake ⟨c, s, st, et, none⟩).2⟩

/-- C9 witness: coin "BTC", interval "1h", the mixed invocation with
`start_time = 0` (dropped) and `end_time = 9` (forwarded as `endTime`). -/
theorem C9_witness :
    "1h" ∈ candleIntervals ∧
    forwardedTime (some 0) = none ∧
    forwardedTime (some 9) = some (Json.num 9) ∧
    (∃ b, request_get_candles ([("coin", Json.str "BTC"), ("interval", Json.str "1h")] ++
        timeArg "start_time" (some 0) ++ timeArg "end_time" (some 9)) = some b ∧
      jsonLookup b "startTime" = forwardedTime (some 0) ∧
      jsonLookup b "endTime" = forwardedTime (some 9) ∧
      jsonLookup b "start_time" = none ∧
      jsonLookup b "end_time" = none) :=
  ⟨by decide, rfl, rfl,
    C9_candles_time_fields "BTC" "1h" (some 0) (some 9) (by decide)⟩

/-- Exactly the two terminal result shapes of the shared try/catch: an
error-flagged message for a rejected call, the serialized body of a
resolved call otherwise. -/
theorem mkResult_cases (req : Json) (oc : HttpOutcome) :
    (∃ m, mkResult (makeHyperliquidRequest req oc) =
        { content := ["Error: " ++ m], isError := some true }) ∨
    (∃ status b, oc = HttpOutcome.success status b ∧
      mkResult (makeHyperliquidRequest req oc) =
        { content := [Json.stringify b], isError := none }) := by
  cases oc with
  | success status b => exact Or.inr ⟨status, b, rfl, rfl⟩
  | httpError status b => exact Or.inl ⟨_, rfl⟩
  | networkError m => exact Or.inl ⟨_, rfl⟩

/-- C10: for every tool and every invocation passing schema validation,
the handler is total with exactly two terminal outcomes: a rejected
outbound call yields an error-flagged single text beginning with
"Error: ", and a resolved call yields the serialized response body with
no error flag. -/
theorem C10_two_terminal_outcomes (t : Tool) (a : Args) (oc : HttpOutcome)
    (hval : toolValidates t a = true) :
    (∃ m, invokeTool t a oc = { content := ["Error: " ++ m], isError := some true }) ∨
    (∃ status b, oc = HttpOutcome.success status b ∧
      invokeTool t a oc = { content := [Json.stringify b], isError := none }) := by
  cases t
  all_goals
    simp only [toolValidates] at hval
    obtain ⟨p, hp⟩ := exceptOk_of_isSome _ hval
    simp only [invokeTool, invoke_get_all_mids, invoke_get_user_state,
      invoke_get_recent_trades, invoke_get_l2_snapshot, invoke_get_candles,
      invoke_get_meta, invoke_get_funding_rates, invoke_get_open_interest]
    rw [runTool_ok _ _ _ _ _ p hp]
    exact mkResult_cases _ oc

/-- C10 witness: `get_all_mids` with empty arguments and a timed-out
outbound call. -/
theorem C10_witness :
    toolValidates Tool.get_all_mids [] = true ∧
    ((∃ m, invokeTool Tool.get_all_mids []
        (HttpOutcome.networkError "timeout of 30000ms exceeded") =
      { content := ["Error: " ++ m], isError := some true }) ∨
     (∃ status b, HttpOutcome.networkError "timeout of 30000ms exceeded" =
        HttpOutcome.success status b ∧
      invokeTool Tool.get_all_mids []
          (HttpOutcome.networkError "timeout of 30000ms exceeded") =
        { content := [Json.stringify b], isError := none })) :=
  ⟨rfl, C10_two_terminal_outcomes Tool.get_all_mids []
    (HttpOutcome.networkError "timeout of 30000ms exceeded") rfl⟩
